import Mathlib

/-!
Verification of the bmutil broadcast cipher, inv-message decoding and
identity import against their natural-language specification.

The Go source is shallowly embedded: byte streams are lists of naturals,
readers are explicit state passing, fallible operations return `Except`,
and external collaborators (elliptic-curve primitives, hash functions,
address codecs) are passed in as explicit function parameters, mirroring
how the source calls them through opaque package boundaries.
-/

set_option maxRecDepth 10000

/-- Errors returned by the embedded Go code.  Sentinel errors that the source
compares by identity (`cipher.ErrInvalidIdentity`, `cipher.ErrInvalidSignature`,
`btcec.ErrInvalidMAC`) are dedicated constructors; `errors.New`/`fmt.Errorf`
values are `mk` with the message; `wire.NewMessageError` values keep the
function name and description separately.  A Go panic is modelled as the
`goPanic` constructor. -/
inductive GoError where
  | mk (msg : String)
  | messageError (f desc : String)
  | invalidIdentity
  | invalidSignature
  | invalidMAC
  | unexpectedEOF
  | goPanic (msg : String)
deriving DecidableEq, Repr

/-- The string a Go error formats to with the %v verb (used where the source
wraps an error with `fmt.Errorf`).  The texts of the sentinel errors live
outside src, so they are modelled; only their distinctness matters. -/
def GoError.message : GoError → String
  | .mk s => s
  | .messageError f desc => f ++ ": " ++ desc
  | .invalidIdentity => "invalid identity"
  | .invalidSignature => "invalid signature"
  | .invalidMAC => "invalid mac hash"
  | .unexpectedEOF => "unexpected EOF"
  | .goPanic s => "panic: " ++ s

/-- Big-endian byte encoding of `n` in exactly `k` bytes (truncating above
`256^k`), as used by the Bitmessage wire format. -/
def toBytesBE : Nat → Nat → List Nat
  | 0, _ => []
  | k + 1, n => toBytesBE k (n / 256) ++ [n % 256]

/-- Big-endian byte decoding. -/
def fromBytesBE (bs : List Nat) : Nat :=
  bs.foldl (fun acc b => acc * 256 + b) 0

theorem toBytesBE_length (k n : Nat) : (toBytesBE k n).length = k := by
  induction k generalizing n with
  | zero => rfl
  | succ k ih => simp [toBytesBE, ih]

theorem fromBytesBE_append_singleton (xs : List Nat) (b : Nat) :
    fromBytesBE (xs ++ [b]) = fromBytesBE xs * 256 + b := by
  simp [fromBytesBE, List.foldl_append]

theorem fromBytesBE_toBytesBE (k n : Nat) :
    fromBytesBE (toBytesBE k n) = n % 256 ^ k := by
  induction k generalizing n with
  | zero => simp [toBytesBE, fromBytesBE, Nat.mod_one]
  | succ k ih =>
      rw [toBytesBE, fromBytesBE_append_singleton, ih]
      have h : (256 : Nat) ^ (k + 1) = 256 * 256 ^ k := by ring
      rw [h, Nat.mod_mul]
      ring

theorem fromBytesBE_toBytesBE_of_lt (k n : Nat) (h : n < 256 ^ k) :
    fromBytesBE (toBytesBE k n) = n := by
  rw [fromBytesBE_toBytesBE, Nat.mod_eq_of_lt h]

/-- io.ReadFull: read exactly `n` bytes from the stream or fail.  (The source
distinguishes EOF from ErrUnexpectedEOF; both are collapsed into one
constructor since no claim depends on which is returned.) -/
def readFull (r : List Nat) (n : Nat) : Except GoError (List Nat × List Nat) :=
  if r.length < n then Except.error GoError.unexpectedEOF
  else Except.ok (r.take n, r.drop n)

theorem readFull_exact (xs rest : List Nat) (n : Nat) (h : xs.length = n) :
    readFull (xs ++ rest) n = Except.ok (xs, rest) := by
  subst h
  unfold readFull
  have hlen : ¬ (xs ++ rest).length < xs.length := by
    simp [List.length_append]
  simp [hlen, List.take_left, List.drop_left]

/-- bmutil.WriteVarInt: the Bitmessage variable-length integer encoding
(big-endian, with 0xfd/0xfe/0xff width markers).  The varint codec lives in
bmutil varint.go, outside src; modelled from the spec sentence that a varint
is "a compact encoding whose maximum legal value and maximum encoded width
are fixed constants" following the standard Bitmessage layout. -/
def writeVarInt (n : Nat) : List Nat :=
  if n < 0xfd then [n]
  else if n ≤ 0xffff then 0xfd :: toBytesBE 2 n
  else if n ≤ 0xffffffff then 0xfe :: toBytesBE 4 n
  else 0xff :: toBytesBE 8 n

/-- bmutil.ReadVarInt (modelled, see `writeVarInt`): decodes the width marker,
reads the big-endian payload, and rejects non-minimal encodings. -/
def readVarInt : List Nat → Except GoError (Nat × List Nat)
  | [] => Except.error GoError.unexpectedEOF
  | b :: r =>
    if b < 0xfd then Except.ok (b, r)
    else if b = 0xfd then
      match readFull r 2 with
      | Except.error e => Except.error e
      | Except.ok (bs, r2) =>
          let v := fromBytesBE bs
          if v < 0xfd then Except.error (GoError.mk "varint not canonically encoded")
          else Except.ok (v, r2)
    else if b = 0xfe then
      match readFull r 4 with
      | Except.error e => Except.error e
      | Except.ok (bs, r2) =>
          let v := fromBytesBE bs
          if v ≤ 0xffff then Except.error (GoError.mk "varint not canonically encoded")
          else Except.ok (v, r2)
    else
      match readFull r 8 with
      | Except.error e => Except.error e
      | Except.ok (bs, r2) =>
          let v := fromBytesBE bs
          if v ≤ 0xffffffff then Except.error (GoError.mk "varint not canonically encoded")
          else Except.ok (v, r2)

theorem readVarInt_writeVarInt (n : Nat) (rest : List Nat) (h : n < 2 ^ 64) :
    readVarInt (writeVarInt n ++ rest) = Except.ok (n, rest) := by
  unfold writeVarInt
  by_cases h1 : n < 0xfd
  · simp [h1, readVarInt]
  · by_cases h2 : n ≤ 0xffff
    · have hv : fromBytesBE (toBytesBE 2 n) = n :=
        fromBytesBE_toBytesBE_of_lt 2 n (by norm_num; omega)
      simp only [h1, h2, if_false, if_true, List.cons_append, readVarInt]
      rw [readFull_exact _ _ _ (toBytesBE_length 2 n)]
      simp [hv, h1]
    · by_cases h3 : n ≤ 0xffffffff
      · have hv : fromBytesBE (toBytesBE 4 n) = n :=
          fromBytesBE_toBytesBE_of_lt 4 n (by norm_num; omega)
        simp only [h1, h2, h3, if_false, if_true, List.cons_append, readVarInt]
        rw [readFull_exact _ _ _ (toBytesBE_length 4 n)]
        simp [hv, h2]
      · have hv : fromBytesBE (toBytesBE 8 n) = n :=
          fromBytesBE_toBytesBE_of_lt 8 n (by norm_num at h ⊢; omega)
        simp only [h1, h2, h3, if_false, List.cons_append, readVarInt]
        rw [readFull_exact _ _ _ (toBytesBE_length 8 n)]
        simp [hv, h3]

/-- subtle.ConstantTimeCompare at the level of values: 1 when the two byte
slices have equal length and contents, 0 otherwise.  (The constant-time
execution property itself is a timing property outside the embedding.) -/
def constantTimeCompare (x y : List Nat) : Nat :=
  if x = y then 1 else 0

/-- bmutil.Address as seen through its consumed interface
`{Version(), Stream(), RipeHash(), String()}` (address internals are an
external collaborator).  `String()` is an env oracle since its base58
encoding lives outside src. -/
structure Address where
  version : Nat
  stream : Nat
  ripe : List Nat
deriving DecidableEq, Repr

/-- pow.Data: proof-of-work parameters. -/
structure PowData where
  nonceTrialsPerByte : Nat
  extraBytes : Nat
deriving DecidableEq, Repr

namespace cipher

/-- obj.SignatureMaxLength.  Modelled from the spec: the constant lives in the
wire/obj package outside src; the spec fixes it at 64 ("a decoded
signature-length field of value 100 where the maximum allowed is 64 must fail
decode"). -/
def SignatureMaxLength : Nat := 64

/-- cipher.Bitmessage, restricted to the fields the broadcast cipher touches:
signing/encryption key material, POW parameters, behavior flags, the optional
destination (which a broadcast must not have) and the opaque body. -/
structure Bitmessage where
  signingKey : List Nat
  encryptionKey : List Nat
  pow : PowData
  behavior : Nat
  destination : Option Address
  body : List Nat
deriving DecidableEq, Repr

/-- Modelled from the spec: `Bitmessage.encodeBroadcast` lives in
cipher/bitmessage.go, which is not under src.  Per the spec the payload
encoding carries the keys, the POW parameters, the behavior flags and the
length-prefixed body (a broadcast has no destination field on the wire):
behavior as 4 big-endian bytes, the two 64-byte public keys raw, the two POW
parameters and the body length as varints, then the body bytes. -/
def Bitmessage.encodeBroadcast (m : Bitmessage) : List Nat :=
  toBytesBE 4 m.behavior ++ m.signingKey ++ m.encryptionKey ++
    writeVarInt m.pow.nonceTrialsPerByte ++ writeVarInt m.pow.extraBytes ++
    writeVarInt m.body.length ++ m.body

/-- Modelled from the spec: inverse reader for `Bitmessage.encodeBroadcast`
(cipher/bitmessage.go is not under src).  Returns the decoded message and the
unconsumed remainder of the stream. -/
def Bitmessage.decodeBroadcast (r : List Nat) : Except GoError (Bitmessage × List Nat) :=
  match readFull r 4 with
  | Except.error e => Except.error e
  | Except.ok (bb, r) =>
    match readFull r 64 with
    | Except.error e => Except.error e
    | Except.ok (sk, r) =>
      match readFull r 64 with
      | Except.error e => Except.error e
      | Except.ok (ek, r) =>
        match readVarInt r with
        | Except.error e => Except.error e
        | Except.ok (nt, r) =>
          match readVarInt r with
          | Except.error e => Except.error e
          | Except.ok (eb, r) =>
            match readVarInt r with
            | Except.error e => Except.error e
            | Except.ok (bl, r) =>
              match readFull r bl with
              | Except.error e => Except.error e
              | Except.ok (body, r) =>
                Except.ok ({ signingKey := sk, encryptionKey := ek, pow := ⟨nt, eb⟩,
                             behavior := fromBytesBE bb, destination := none,
                             body := body }, r)

instance {ε α : Type _} [DecidableEq ε] [DecidableEq α] : DecidableEq (Except ε α)
  | .error e1, .error e2 =>
    if h : e1 = e2 then .isTrue (by rw [h])
    else .isFalse (by intro hc; cases hc; exact h rfl)
  | .error _, .ok _ => .isFalse (by intro hc; cases hc)
  | .ok _, .error _ => .isFalse (by intro hc; cases hc)
  | .ok a1, .ok a2 =>
    if h : a1 = a2 then .isTrue (by rw [h])
    else .isFalse (by intro hc; cases hc; exact h rfl)

/-- obj.Broadcast through its consumed interface: the ciphertext payload
(`Encrypted()`) and the serialized header-for-signing bytes
(`EncodeForSigning`, which may fail on a writer error). -/
structure ObjBroadcast where
  encrypted : List Nat
  headerForSigning : Except GoError (List Nat)
deriving DecidableEq, Repr

/-- obj.TaggedBroadcast: an obj.Broadcast together with its cleartext
32-byte tag. -/
structure TaggedBroadcast where
  tag : List Nat
  obj : ObjBroadcast
deriving DecidableEq, Repr

/-- btcec.Signature after parsing: its only consumed capability is
`Verify(hash, pubkey)`. -/
structure ParsedSig where
  check : List Nat → List Nat → Bool

/-- identity.Public through its consumed capability: `Address()`. -/
structure Public where
  address : Address

/-- The incompleteBroadcast interface of broadcast.go: `Encode` writes the
version-specific unsigned header (here: to a byte buffer), `Encrypt`
encrypts the payload for the given address and wraps it in the finished
object. -/
structure IncompleteBroadcast where
  encode : Except GoError (List Nat)
  encrypt : Address → List Nat → Except GoError ObjBroadcast

/-- The external collaborators the broadcast cipher calls: hash primitives,
btcec signature parsing, the identity/address package, tag derivation, the
per-version decryption closures (`btcec.Decrypt` with the key derived by
`V4BroadcastDecryptionKey`/`V5BroadcastDecryptionKey`), and the constructors
for the incomplete (unsigned) header variants.  All are opaque package
boundaries in broadcast.go. -/
structure CryptoEnv where
  sha256 : List Nat → List Nat
  sha1 : List Nat → List Nat
  toBtcec : List Nat → Except GoError (List Nat)
  newPublic : List Nat → List Nat → Nat → PowData → Nat → Nat → Except GoError Public
  addrString : Address → String
  parseSignature : List Nat → Except GoError ParsedSig
  tagOf : Address → List Nat
  v4Key : Address → List Nat → Except GoError (List Nat)
  v5Key : Address → List Nat → Except GoError (List Nat)
  mkTagless : Nat → Nat → IncompleteBroadcast
  mkTagged : Nat → Nat → List Nat → IncompleteBroadcast

/-- cipher.Private through the capabilities broadcast.go consumes:
`Address()` and `SigningKey.Sign(hash)` followed by `sig.Serialize()`
(combined into one serialized-signature-producing operation). -/
structure Private where
  address : Address
  sign : List Nat → Except GoError (List Nat)

/-- cipher.Broadcast: the wire object (nil until encryption or decode-time
attachment), the decrypted payload and the detached signature. -/
structure Broadcast where
  msg : Option ObjBroadcast
  data : Bitmessage
  signature : List Nat
deriving DecidableEq, Repr

/-- broadcastEncodeForSigning (broadcast.go:93): the unsigned header bytes
followed by the signable encoding of the payload. -/
def broadcastEncodeForSigning (i : IncompleteBroadcast) (data : Bitmessage) :
    Except GoError (List Nat) :=
  match i.encode with
  | Except.error err => Except.error err
  | Except.ok h => Except.ok (h ++ data.encodeBroadcast)

/-- Broadcast.encodeForSigning (broadcast.go:125): panics when msg is nil,
otherwise the object header-for-signing bytes followed by the
signable encoding of the payload. -/
def Broadcast.encodeForSigning (broadcast : Broadcast) : Except GoError (List Nat) :=
  match broadcast.msg with
  | none => Except.error (GoError.goPanic "msg is nil")
  | some msg =>
    match msg.headerForSigning with
    | Except.error err => Except.error err
    | Except.ok h => Except.ok (h ++ broadcast.data.encodeBroadcast)

/-- Broadcast.encodeForEncryption (broadcast.go:142): payload encoding, then
the varint signature length, then the raw signature bytes.  (To a byte
buffer the writes cannot fail, so the encoding is a pure function.) -/
def Broadcast.encodeForEncryption (broadcast : Broadcast) : List Nat :=
  broadcast.data.encodeBroadcast ++ writeVarInt broadcast.signature.length ++
    broadcast.signature

/-- Broadcast.decodeFromDecrypted (broadcast.go:159): decode the payload,
read the varint signature length, reject lengths above SignatureMaxLength
before looking at the remaining bytes, then read exactly that many
signature bytes. -/
def Broadcast.decodeFromDecrypted (r : List Nat) : Except GoError Broadcast :=
  match Bitmessage.decodeBroadcast r with
  | Except.error e => Except.error e
  | Except.ok (data, r) =>
    match readVarInt r with
    | Except.error e => Except.error e
    | Except.ok (sigLength, r) =>
      if sigLength > SignatureMaxLength then
        Except.error (GoError.messageError "DecodeFromDecrypted"
          ("signature length exceeds max length - indicates " ++ toString sigLength ++
            ", but max length is " ++ toString SignatureMaxLength))
      else
        match readFull r sigLength with
        | Except.error e => Except.error e
        | Except.ok (signature, _) =>
          Except.ok { msg := none, data := data, signature := signature }

/-- Broadcast.signAndEncrypt (broadcast.go:181): encode for signing, hash
with SHA-256, sign (wrapping a signing failure), encode for encryption,
encrypt (wrapping an encryption failure), and attach the finished object. -/
def Broadcast.signAndEncrypt (broadcast : Broadcast) (env : CryptoEnv)
    (i : IncompleteBroadcast) (address : Address) (priv : Private) :
    Except GoError Broadcast :=
  match broadcastEncodeForSigning i broadcast.data with
  | Except.error err => Except.error err
  | Except.ok b =>
    let hash := env.sha256 b
    match priv.sign hash with
    | Except.error err => Except.error (GoError.mk ("signing failed: " ++ err.message))
    | Except.ok sig =>
      let broadcast1 : Broadcast := { broadcast with signature := sig }
      let b2 := broadcast1.encodeForEncryption
      match i.encrypt address b2 with
      | Except.error err =>
          Except.error (GoError.mk ("encryption failed: " ++ err.message))
      | Except.ok msg => Except.ok { broadcast1 with msg := some msg }

/-- The message of the address-mismatch (possible spoofing) error raised by
Broadcast.verify (broadcast.go:249). -/
def spoofErrorMsg (dencAddr genAddr : String) : String :=
  "Address used for decryption (" ++ dencAddr ++ ") does not match " ++
    "that generated from public key (" ++ genAddr ++ "). Possible surreptitious " ++
    "forwarding attack."

/-- Broadcast.verify (broadcast.go:220): rebuild a public identity from the
decoded keys with the version and stream of the decrypting address, compare
the regenerated address string with the string of the decrypting address
(mismatch is
the spoofing error), then check the stored signature against the SHA-256
hash of the signable bytes first and against the legacy SHA-1 hash second,
failing with ErrInvalidSignature only when both checks fail. -/
def Broadcast.verify (broadcast : Broadcast) (env : CryptoEnv) (address : Address) :
    Except GoError Unit :=
  match broadcast.msg with
  | none => Except.error (GoError.goPanic "msg is nil")
  | some _ =>
    match env.toBtcec broadcast.data.signingKey with
    | Except.error err => Except.error err
    | Except.ok signKey =>
      match env.toBtcec broadcast.data.encryptionKey with
      | Except.error err => Except.error err
      | Except.ok encKey =>
        match env.newPublic signKey encKey broadcast.data.behavior
            broadcast.data.pow address.version address.stream with
        | Except.error err => Except.error err
        | Except.ok id =>
          let addr := id.address
          let genAddr := env.addrString addr
          let dencAddr := env.addrString address
          if dencAddr ≠ genAddr then
            Except.error (GoError.mk (spoofErrorMsg dencAddr genAddr))
          else
            match broadcast.encodeForSigning with
            | Except.error err => Except.error err
            | Except.ok b =>
              let hash := env.sha256 b
              let sha1hash := env.sha1 b
              match env.parseSignature broadcast.signature with
              | Except.error _ => Except.error GoError.invalidSignature
              | Except.ok sig =>
                if sig.check hash signKey then Except.ok ()
                else if sig.check sha1hash signKey then Except.ok ()
                else Except.error GoError.invalidSignature

/-- CreateTaglessBroadcast (broadcast.go:281): reject a non-nil destination
before running the sign-and-encrypt pipeline; mirror the two Go return values
as an optional broadcast and an optional error. -/
def CreateTaglessBroadcast (env : CryptoEnv) (expiration : Nat) (data : Bitmessage)
    (priv : Private) : Option Broadcast × Option GoError :=
  let address := priv.address
  if data.destination ≠ none then
    (none, some (GoError.mk "Broadcasts do not have a destination."))
  else
    let broadcast : Broadcast := { msg := none, data := data, signature := [] }
    match broadcast.signAndEncrypt env (env.mkTagless expiration address.stream)
        address priv with
    | Except.error err => (none, some err)
    | Except.ok b => (some b, none)

/-- CreateTaggedBroadcast (broadcast.go:304): same shape with the tagged
header variant. -/
def CreateTaggedBroadcast (env : CryptoEnv) (expires : Nat) (data : Bitmessage)
    (tag : List Nat) (priv : Private) : Option Broadcast × Option GoError :=
  let address := priv.address
  if data.destination ≠ none then
    (none, some (GoError.mk "Broadcasts do not have a destination."))
  else
    let broadcast : Broadcast := { msg := none, data := data, signature := [] }
    match broadcast.signAndEncrypt env (env.mkTagged expires address.stream tag)
        address priv with
    | Except.error err => (none, some err)
    | Except.ok b => (some b, none)

/-- newBroadcast (broadcast.go:325): decrypt (turning a MAC failure into
ErrInvalidIdentity and passing any other decryption error through), decode
the plaintext, attach the wire object, and verify. -/
def newBroadcast (env : CryptoEnv) (msg : ObjBroadcast)
    (key : List Nat → Except GoError (List Nat)) (address : Address) :
    Except GoError Broadcast :=
  let encrypted := msg.encrypted
  match key encrypted with
  | Except.error err =>
      if err = GoError.invalidMAC then Except.error GoError.invalidIdentity
      else Except.error err
  | Except.ok dec =>
    match Broadcast.decodeFromDecrypted dec with
    | Except.error err => Except.error err
    | Except.ok broadcast0 =>
      let broadcast : Broadcast := { broadcast0 with msg := some msg }
      match broadcast.verify env address with
      | Except.error err => Except.error err
      | Except.ok _ => Except.ok broadcast

/-- NewTaglessBroadcast (broadcast.go:355): open with the v4 decryption key. -/
def NewTaglessBroadcast (env : CryptoEnv) (msg : ObjBroadcast) (address : Address) :
    Except GoError Broadcast :=
  newBroadcast env msg (env.v4Key address) address

/-- NewTaggedBroadcast (broadcast.go:366): constant-time tag filter before any
decryption, then open with the v5 decryption key. -/
def NewTaggedBroadcast (env : CryptoEnv) (msg : TaggedBroadcast) (address : Address) :
    Except GoError Broadcast :=
  if constantTimeCompare msg.tag (env.tagOf address) ≠ 1 then
    Except.error GoError.invalidIdentity
  else
    newBroadcast env msg.obj (env.v5Key address) address

end cipher

namespace wire

/-- MaxInvPerMsg: the maximum number of inventory vectors per inv message.
The constant is declared outside src; the documentation in msginv.go fixes it
("Each message is limited to a maximum number of inventory vectors, which is
currently 50,000"). -/
def MaxInvPerMsg : Nat := 50000

/-- wire.InvVect through its consumed shape: an object type and a hash. -/
structure InvVect where
  typ : Nat
  hash : List Nat
deriving DecidableEq, Repr

/-- wire.MsgInv: the inventory list. -/
structure MsgInv where
  invList : List InvVect
deriving DecidableEq, Repr

/-- MsgInv.AddInvVect (msginv.go): appends unless the list is already at
MaxInvPerMsg; mirrors the Go in-place update plus error return as a pair. -/
def MsgInv.AddInvVect (msg : MsgInv) (iv : InvVect) : MsgInv × Option GoError :=
  if msg.invList.length + 1 > MaxInvPerMsg then
    (msg, some (GoError.messageError "MsgInv.AddInvVect"
      ("too many invvect in message [max " ++ toString MaxInvPerMsg ++ "]")))
  else ({ invList := msg.invList ++ [iv] }, none)

/-- The body of the MsgInv.Decode read loop: read `count` inventory vectors,
appending each with AddInvVect (whose error return the source ignores).
`readInvVect` lives in msginvvect.go outside src and is passed in as the
reader for one inventory vector. -/
def decodeInvLoop (readInvVect : List Nat → Except GoError (InvVect × List Nat)) :
    Nat → MsgInv → List Nat → Except GoError MsgInv
  | 0, msg, _ => Except.ok msg
  | Nat.succ k, msg, r =>
    match readInvVect r with
    | Except.error err => Except.error err
    | Except.ok (iv, r2) => decodeInvLoop readInvVect k (msg.AddInvVect iv).1 r2

/-- MsgInv.Decode (msginv.go:52): read the varint count, reject counts above
MaxInvPerMsg before touching the rest of the stream, then read that many
inventory vectors into a fresh list. -/
def MsgInv.Decode (readInvVect : List Nat → Except GoError (InvVect × List Nat))
    (r : List Nat) : Except GoError MsgInv :=
  match readVarInt r with
  | Except.error err => Except.error err
  | Except.ok (count, r2) =>
    if count > MaxInvPerMsg then
      Except.error (GoError.messageError "MsgInv.Decode"
        ("too many invvect in message [" ++ toString count ++ "]"))
    else decodeInvLoop readInvVect count { invList := [] } r2

end wire

namespace identity

/-- The external collaborators identity.ImportWIF calls: the address and WIF
codecs from bmutil, and the hash/curve primitives used by Private.hash
(serializing the public point of a private key, SHA-512, RIPEMD-160). -/
structure IdEnv where
  sha512 : List Nat → List Nat
  ripemd160 : List Nat → List Nat
  pubSerializeUncompressed : List Nat → List Nat
  decodeAddress : String → Except GoError Address
  decodeWIF : String → Except GoError (List Nat)

/-- identity.Private (part_002): address, POW data, private signing and
decryption keys (opaque byte strings), behavior flags. -/
structure Private where
  address : Address
  pow : PowData
  signingKey : List Nat
  decryptionKey : List Nat
  behavior : Nat
deriving DecidableEq, Repr

/-- hashHelper (part_002:299): ripemd160(sha512(signingKey ∥ decryptionKey)). -/
def hashHelper (env : IdEnv) (signingKey decryptionKey : List Nat) : List Nat :=
  env.ripemd160 (env.sha512 (signingKey ++ decryptionKey))

/-- Private.hash (part_002:311): hashHelper over the uncompressed public
points of the two private keys. -/
def Private.hash (env : IdEnv) (id : Private) : List Nat :=
  hashHelper env (env.pubSerializeUncompressed id.signingKey)
    (env.pubSerializeUncompressed id.decryptionKey)

/-- Modelled from the spec: identity.createAddress lives in the identity
package outside src.  Per the address interface of the spec it packages a version,
a stream and a 20-byte ripe hash into an address, failing on a ripe hash of
the wrong length. -/
def createAddress (version stream : Nat) (ripe : List Nat) : Except GoError Address :=
  if ripe.length = 20 then Except.ok { version := version, stream := stream, ripe := ripe }
  else Except.error (GoError.mk "ripe hash must be 20 bytes")

/-- ImportWIF (part_002:247): decode the address and the two WIF keys
(wrapping WIF failures with a naming prefix), re-derive the address from the
the imported keys using the version and stream of the decoded address, and
reject the import when the re-derived ripe hash differs from the decoded
one. -/
def ImportWIF (env : IdEnv) (address signingKeyWif decryptionKeyWif : String)
    (nonceTrials extraBytes : Nat) : Except GoError Private :=
  match env.decodeAddress address with
  | Except.error err => Except.error err
  | Except.ok addr =>
    match env.decodeWIF signingKeyWif with
    | Except.error err =>
        Except.error (GoError.mk ("signing key decode failed: " ++ err.message))
    | Except.ok privSigningKey =>
      match env.decodeWIF decryptionKeyWif with
      | Except.error err =>
          Except.error (GoError.mk ("encryption key decode failed: " ++ err.message))
      | Except.ok privDecryptionKey =>
        let priv : Private :=
          { address := addr, signingKey := privSigningKey,
            decryptionKey := privDecryptionKey,
            pow := ⟨nonceTrials, extraBytes⟩, behavior := 0 }
        match createAddress addr.version addr.stream (priv.hash env) with
        | Except.error err => Except.error err
        | Except.ok a =>
          let priv2 : Private := { priv with address := a }
          if priv2.address.ripe = addr.ripe then Except.ok priv2
          else Except.error (GoError.mk "address does not correspond to private keys")

end identity

/-! Concrete fixtures used by witnesses and counterexamples. -/

/-- A minimal well-formed broadcast payload: all-zero 64-byte keys, zero POW
parameters, zero behavior, no destination, empty body. -/
def m0 : cipher.Bitmessage :=
  { signingKey := List.replicate 64 0, encryptionKey := List.replicate 64 0,
    pow := ⟨0, 0⟩, behavior := 0, destination := none, body := [] }

/-- The decrypted form of `m0` with an empty signature. -/
def dec0 : List Nat := m0.encodeBroadcast ++ writeVarInt 0

/-- A trivial wire object. -/
def obj1 : cipher.ObjBroadcast := { encrypted := [], headerForSigning := Except.ok [] }

def addr1 : Address := { version := 4, stream := 1, ripe := List.replicate 20 0 }

def addr2 : Address := { version := 4, stream := 1, ripe := List.replicate 20 1 }

def pub1 : cipher.Public := { address := addr1 }

def pub2 : cipher.Public := { address := addr2 }

/-- A parsed signature that verifies exactly the hash `[1]`. -/
def sig0 : cipher.ParsedSig := { check := fun h _ => decide (h = [1]) }

/-- A trivial incomplete header whose encryption step succeeds. -/
def i0 : cipher.IncompleteBroadcast :=
  { encode := Except.ok [],
    encrypt := fun _ d => Except.ok { encrypted := d, headerForSigning := Except.ok [] } }

/-- A concrete environment: decryption always yields `dec0`, the rebuilt
identity has address `addr2`, address strings are "A" for `addr1` and "B"
for anything else, SHA-256 is constantly `[0]` and SHA-1 constantly `[1]`. -/
def env1 : cipher.CryptoEnv :=
  { sha256 := fun _ => [0], sha1 := fun _ => [1],
    toBtcec := fun k => Except.ok k,
    newPublic := fun _ _ _ _ _ _ => Except.ok pub2,
    addrString := fun a => if a = addr1 then "A" else "B",
    parseSignature := fun _ => Except.ok sig0,
    tagOf := fun _ => List.replicate 32 0,
    v4Key := fun _ _ => Except.ok dec0,
    v5Key := fun _ _ => Except.ok dec0,
    mkTagless := fun _ _ => i0,
    mkTagged := fun _ _ _ => i0 }

/-- Like `env1` but the rebuilt identity has the decrypting address itself,
so the spoofing check passes. -/
def env2 : cipher.CryptoEnv :=
  { env1 with newPublic := fun _ _ _ _ _ _ => Except.ok pub1 }

/-- C4: for every tagged broadcast object and destination address, a cleartext
tag that differs (under constant-time comparison) from the tag derived from
the address makes NewTaggedBroadcast return ErrInvalidIdentity, and — since
the environment (hence the decryption closure) is universally quantified —
no decryption result is ever consulted; when the tags are equal the call is
exactly the decrypting open pipeline `newBroadcast`. -/
theorem C4_tag_filter (env : cipher.CryptoEnv) (msg : cipher.TaggedBroadcast)
    (address : Address) :
    (msg.tag ≠ env.tagOf address →
      cipher.NewTaggedBroadcast env msg address = Except.error GoError.invalidIdentity) ∧
    (msg.tag = env.tagOf address →
      cipher.NewTaggedBroadcast env msg address =
        cipher.newBroadcast env msg.obj (env.v5Key address) address) := by
  unfold cipher.NewTaggedBroadcast constantTimeCompare
  constructor
  · intro hne
    simp [hne]
  · intro heq
    simp [heq]

/-- Witness for C4 at concrete inputs: a 32-byte tag of ones against a derived
tag of zeros is rejected as ErrInvalidIdentity; matching all-zero tags hand
control to `newBroadcast`. -/
theorem C4_tag_filter_witness :
    cipher.NewTaggedBroadcast env1 { tag := List.replicate 32 1, obj := obj1 } addr1 =
      Except.error GoError.invalidIdentity ∧
    cipher.NewTaggedBroadcast env1 { tag := List.replicate 32 0, obj := obj1 } addr1 =
      cipher.newBroadcast env1 obj1 (env1.v5Key addr1) addr1 :=
  ⟨(C4_tag_filter env1 { tag := List.replicate 32 1, obj := obj1 } addr1).1 (by decide),
   (C4_tag_filter env1 { tag := List.replicate 32 0, obj := obj1 } addr1).2 (by decide)⟩

/-- C5: a decryption failure in newBroadcast is returned as ErrInvalidIdentity
exactly when the underlying error is the MAC-mismatch sentinel, and verbatim
otherwise. -/
theorem C5_decrypt_error_mapping (env : cipher.CryptoEnv) (msg : cipher.ObjBroadcast)
    (key : List Nat → Except GoError (List Nat)) (address : Address) (e : GoError)
    (h : key msg.encrypted = Except.error e) :
    cipher.newBroadcast env msg key address =
      Except.error (if e = GoError.invalidMAC then GoError.invalidIdentity else e) := by
  unfold cipher.newBroadcast
  simp only []
  rw [h]
  by_cases hm : e = GoError.invalidMAC <;> simp [hm]

/-- Witness for C5: a MAC failure comes back as ErrInvalidIdentity; any other
decryption error (here a plain "boom") comes back verbatim. -/
theorem C5_decrypt_error_mapping_witness :
    cipher.newBroadcast env1 obj1 (fun _ => Except.error GoError.invalidMAC) addr1 =
      Except.error GoError.invalidIdentity ∧
    cipher.newBroadcast env1 obj1 (fun _ => Except.error (GoError.mk "boom")) addr1 =
      Except.error (GoError.mk "boom") := by
  constructor
  · have h := C5_decrypt_error_mapping env1 obj1
      (fun _ => Except.error GoError.invalidMAC) addr1 GoError.invalidMAC rfl
    simpa using h
  · have h := C5_decrypt_error_mapping env1 obj1
      (fun _ => Except.error (GoError.mk "boom")) addr1 (GoError.mk "boom") rfl
    simpa using h

/-- C6: whenever the payload decodes and the varint signature-length field
exceeds SignatureMaxLength, decodeFromDecrypted fails with the decode
(Malformed) message error — the conclusion does not depend on `r2`, the
bytes still remaining in the stream. -/
theorem C6_sig_length_bound (r r1 r2 : List Nat) (data : cipher.Bitmessage) (n : Nat)
    (h1 : cipher.Bitmessage.decodeBroadcast r = Except.ok (data, r1))
    (h2 : readVarInt r1 = Except.ok (n, r2))
    (h3 : n > cipher.SignatureMaxLength) :
    cipher.Broadcast.decodeFromDecrypted r =
      Except.error (GoError.messageError "DecodeFromDecrypted"
        ("signature length exceeds max length - indicates " ++ toString n ++
          ", but max length is " ++ toString cipher.SignatureMaxLength)) := by
  unfold cipher.Broadcast.decodeFromDecrypted
  rw [h1]
  simp only []
  rw [h2]
  simp [h3]

/-- Witness for C6: a stream carrying a declared signature length of 100 with
100 signature bytes physically present still fails decode against the
maximum of 64. -/
theorem C6_sig_length_bound_witness :
    cipher.Broadcast.decodeFromDecrypted
        (m0.encodeBroadcast ++ writeVarInt 100 ++ List.replicate 100 7) =
      Except.error (GoError.messageError "DecodeFromDecrypted"
        ("signature length exceeds max length - indicates " ++ toString 100 ++
          ", but max length is " ++ toString cipher.SignatureMaxLength)) :=
  C6_sig_length_bound _ (100 :: List.replicate 100 7) (List.replicate 100 7) m0 100
    (by decide) (by decide) (by decide)

/-- C9: MsgInv.Decode rejects a varint count above MaxInvPerMsg with the
Malformed message error; the conclusion holds for every inventory-vector
reader and does not depend on the rest of the stream, so the rejection
happens before any inventory vector is read. -/
theorem C9_inv_count_bound (r r2 : List Nat) (count : Nat)
    (h1 : readVarInt r = Except.ok (count, r2))
    (h2 : count > wire.MaxInvPerMsg) :
    ∀ readInvVect, wire.MsgInv.Decode readInvVect r =
      Except.error (GoError.messageError "MsgInv.Decode"
        ("too many invvect in message [" ++ toString count ++ "]")) := by
  intro readInvVect
  unfold wire.MsgInv.Decode
  rw [h1]
  simp [h2]

/-- Witness for C9: a count of 50001 (one above the maximum) is rejected even
with an empty remainder and a reader that would fail. -/
theorem C9_inv_count_bound_witness :
    wire.MsgInv.Decode (fun _ => Except.error GoError.unexpectedEOF)
        (writeVarInt 50001) =
      Except.error (GoError.messageError "MsgInv.Decode"
        ("too many invvect in message [" ++ toString 50001 ++ "]")) :=
  C9_inv_count_bound (writeVarInt 50001) [] 50001 (by decide) (by decide)
    (fun _ => Except.error GoError.unexpectedEOF)

/-- C3: when the spoofing check passes and the signature parses, verify
succeeds exactly when the signature checks against the primary SHA-256 hash
of the signable bytes or against the legacy SHA-1 hash, and returns the
invalid-signature error exactly when both checks fail — so a signature
valid only under the legacy hash still verifies. -/
theorem C3_dual_hash (env : cipher.CryptoEnv) (b : cipher.Broadcast) (address : Address)
    (sk ek bytes : List Nat) (id : cipher.Public) (sig : cipher.ParsedSig)
    (hsk : env.toBtcec b.data.signingKey = Except.ok sk)
    (hek : env.toBtcec b.data.encryptionKey = Except.ok ek)
    (hid : env.newPublic sk ek b.data.behavior b.data.pow address.version address.stream
      = Except.ok id)
    (heq : env.addrString address = env.addrString id.address)
    (henc : b.encodeForSigning = Except.ok bytes)
    (hsig : env.parseSignature b.signature = Except.ok sig) :
    (cipher.Broadcast.verify b env address = Except.ok () ↔
      (sig.check (env.sha256 bytes) sk = true ∨ sig.check (env.sha1 bytes) sk = true)) ∧
    (cipher.Broadcast.verify b env address = Except.error GoError.invalidSignature ↔
      (sig.check (env.sha256 bytes) sk = false ∧ sig.check (env.sha1 bytes) sk = false)) := by
  obtain ⟨m, hm⟩ : ∃ m, b.msg = some m := by
    cases hmm : b.msg with
    | none => simp [cipher.Broadcast.encodeForSigning, hmm] at henc
    | some m => exact ⟨m, rfl⟩
  unfold cipher.Broadcast.verify
  rw [hm]
  simp only []
  rw [hsk]
  simp only []
  rw [hek]
  simp only []
  rw [hid]
  simp only []
  rw [heq]
  simp only [ne_eq, not_true_eq_false, if_false]
  rw [henc]
  simp only []
  rw [hsig]
  simp only []
  by_cases hc1 : sig.check (env.sha256 bytes) sk <;>
    by_cases hc2 : sig.check (env.sha1 bytes) sk <;>
      simp [hc1, hc2]

/-- Witness for C3 at concrete inputs: an environment whose SHA-256 is
constantly [0] and SHA-1 constantly [1], and a parsed signature that checks
only the hash [1] — the primary check fails, the legacy check succeeds, and
verify returns success. -/
theorem C3_dual_hash_witness :
    cipher.Broadcast.verify { msg := some obj1, data := m0, signature := [] } env2 addr1 =
      Except.ok () :=
  (C3_dual_hash env2 { msg := some obj1, data := m0, signature := [] } addr1
      (List.replicate 64 0) (List.replicate 64 0) m0.encodeBroadcast pub1 sig0
      rfl rfl rfl rfl rfl rfl).1.mpr (Or.inr (by decide))

/-- C1 counterexample: a received tagless broadcast that decrypts and decodes
successfully but whose embedded keys regenerate a different address string
is rejected by the open pipeline with the plain formatted spoofing error
produced by `fmt.Errorf` — not with the ErrInvalidIdentity sentinel the
claim names. -/
theorem C1_spoof_counterexample :
    cipher.NewTaglessBroadcast env1 obj1 addr1 =
      Except.error (GoError.mk (cipher.spoofErrorMsg "A" "B")) ∧
    GoError.mk (cipher.spoofErrorMsg "A" "B") ≠ GoError.invalidIdentity := by
  constructor
  · rfl
  · decide

/-- C1 (amended): for every received broadcast that decrypts and decodes
successfully, verify reconstructs a public identity from the decoded keys,
behavior and POW parameters with the version and stream of the decrypting
address; if the regenerated address string differs from the string of the
decrypting address, the open pipeline fails with the dedicated spoofing error
(a plain formatted error naming both addresses and a possible surreptitious
forwarding attack) — distinct from success, from ErrInvalidIdentity and
from ErrInvalidSignature. -/
theorem C1_spoof_mismatch (env : cipher.CryptoEnv) (msg : cipher.ObjBroadcast)
    (address : Address) (dec : List Nat) (b0 : cipher.Broadcast)
    (sk ek : List Nat) (id : cipher.Public)
    (hdec : env.v4Key address msg.encrypted = Except.ok dec)
    (hdecode : cipher.Broadcast.decodeFromDecrypted dec = Except.ok b0)
    (hsk : env.toBtcec b0.data.signingKey = Except.ok sk)
    (hek : env.toBtcec b0.data.encryptionKey = Except.ok ek)
    (hid : env.newPublic sk ek b0.data.behavior b0.data.pow address.version address.stream
      = Except.ok id)
    (hne : env.addrString address ≠ env.addrString id.address) :
    cipher.NewTaglessBroadcast env msg address =
      Except.error (GoError.mk (cipher.spoofErrorMsg (env.addrString address)
        (env.addrString id.address))) ∧
    cipher.NewTaglessBroadcast env msg address ≠ Except.error GoError.invalidIdentity ∧
    cipher.NewTaglessBroadcast env msg address ≠ Except.error GoError.invalidSignature := by
  have hmain : cipher.NewTaglessBroadcast env msg address =
      Except.error (GoError.mk (cipher.spoofErrorMsg (env.addrString address)
        (env.addrString id.address))) := by
    unfold cipher.NewTaglessBroadcast cipher.newBroadcast
    simp only []
    rw [hdec]
    simp only []
    rw [hdecode]
    simp only []
    unfold cipher.Broadcast.verify
    simp only []
    rw [hsk]
    simp only []
    rw [hek]
    simp only []
    rw [hid]
    simp only []
    rw [if_pos hne]
  refine ⟨hmain, ?_, ?_⟩ <;> rw [hmain] <;> simp

/-- Witness for the amended C1 at concrete inputs: with `env1` the decrypted
payload decodes to keys that regenerate address string "B" while the
decrypting address renders as "A", and the pipeline fails with the spoofing
error for those two strings. -/
theorem C1_spoof_mismatch_witness :
    cipher.NewTaglessBroadcast env1 obj1 addr1 =
      Except.error (GoError.mk (cipher.spoofErrorMsg (env1.addrString addr1)
        (env1.addrString pub2.address))) :=
  (C1_spoof_mismatch env1 obj1 addr1 dec0
      { msg := none, data := m0, signature := [] }
      (List.replicate 64 0) (List.replicate 64 0) pub2
      rfl (by decide) rfl rfl rfl (by decide)).1

theorem readFull_all (xs : List Nat) : readFull xs xs.length = Except.ok (xs, []) := by
  have h := readFull_exact xs [] xs.length rfl
  simpa using h

/-- Decoding inverts the payload encoding on any well-formed Bitmessage,
leaving the rest of the stream untouched (the destination, which the
broadcast wire form does not carry, comes back as none). -/
theorem decodeBroadcast_encodeBroadcast (m : cipher.Bitmessage) (rest : List Nat)
    (hsk : m.signingKey.length = 64) (hek : m.encryptionKey.length = 64)
    (hbe : m.behavior < 2 ^ 32)
    (hnt : m.pow.nonceTrialsPerByte < 2 ^ 64) (heb : m.pow.extraBytes < 2 ^ 64)
    (hbl : m.body.length < 2 ^ 64) :
    cipher.Bitmessage.decodeBroadcast (m.encodeBroadcast ++ rest) =
      Except.ok ({ m with destination := none }, rest) := by
  unfold cipher.Bitmessage.encodeBroadcast cipher.Bitmessage.decodeBroadcast
  simp only [List.append_assoc]
  rw [readFull_exact _ _ 4 (toBytesBE_length 4 m.behavior)]
  simp only []
  rw [readFull_exact _ _ 64 hsk]
  simp only []
  rw [readFull_exact _ _ 64 hek]
  simp only []
  rw [readVarInt_writeVarInt _ _ hnt]
  simp only []
  rw [readVarInt_writeVarInt _ _ heb]
  simp only []
  rw [readVarInt_writeVarInt _ _ hbl]
  simp only []
  rw [readFull_exact _ _ m.body.length rfl]
  simp only []
  rw [fromBytesBE_toBytesBE_of_lt 4 m.behavior (by norm_num at hbe ⊢; omega)]

/-- C2: for every Broadcast with a legal-length signature and well-formed
payload fields, decodeFromDecrypted inverts encodeForEncryption: the decoded
Broadcast carries the same keys, POW parameters, behavior, body and
signature (its wire object is unset and the destination, absent from the
broadcast wire form, comes back as none). -/
theorem C2_encode_decode_roundtrip (b : cipher.Broadcast)
    (hsk : b.data.signingKey.length = 64) (hek : b.data.encryptionKey.length = 64)
    (hbe : b.data.behavior < 2 ^ 32)
    (hnt : b.data.pow.nonceTrialsPerByte < 2 ^ 64)
    (heb : b.data.pow.extraBytes < 2 ^ 64)
    (hbl : b.data.body.length < 2 ^ 64)
    (hsig : b.signature.length ≤ cipher.SignatureMaxLength) :
    cipher.Broadcast.decodeFromDecrypted b.encodeForEncryption =
      Except.ok { msg := none, data := { b.data with destination := none },
                  signature := b.signature } := by
  unfold cipher.Broadcast.encodeForEncryption cipher.Broadcast.decodeFromDecrypted
  simp only [List.append_assoc]
  rw [decodeBroadcast_encodeBroadcast b.data _ hsk hek hbe hnt heb hbl]
  simp only []
  rw [readVarInt_writeVarInt _ _ (lt_of_le_of_lt hsig (by decide))]
  simp only []
  rw [if_neg (not_lt.mpr hsig)]
  rw [readFull_all]

/-- A concrete broadcast with nonzero fields for the round-trip witness. -/
def b2w : cipher.Broadcast :=
  { msg := none,
    data := { signingKey := List.replicate 64 2, encryptionKey := List.replicate 64 3,
              pow := ⟨1000, 1000⟩, behavior := 1, destination := none, body := [9, 9] },
    signature := List.replicate 64 1 }

/-- Witness for C2 at a concrete broadcast with a 64-byte signature,
POW parameters (1000, 1000), behavior 1 and a 2-byte body. -/
theorem C2_encode_decode_roundtrip_witness :
    cipher.Broadcast.decodeFromDecrypted b2w.encodeForEncryption =
      Except.ok { msg := none, data := { b2w.data with destination := none },
                  signature := b2w.signature } :=
  C2_encode_decode_roundtrip b2w (by decide) (by decide) (by decide) (by decide)
    (by decide) (by decide) (by decide)

/-- A private identity whose signing oracle succeeds with a 64-byte signature. -/
def priv1 : cipher.Private :=
  { address := addr1, sign := fun _ => Except.ok (List.replicate 64 1) }

/-- A private identity whose signing oracle fails with "boom". -/
def privBoom : cipher.Private :=
  { address := addr1, sign := fun _ => Except.error (GoError.mk "boom") }

/-- A payload carrying a (forbidden) destination. -/
def mDest : cipher.Bitmessage := { m0 with destination := some addr2 }

/-- An incomplete header whose encode step fails. -/
def iErr : cipher.IncompleteBroadcast :=
  { encode := Except.error (GoError.mk "w"),
    encrypt := fun _ _ => Except.ok obj1 }

/-- An incomplete header whose encryption step fails. -/
def iEncFail : cipher.IncompleteBroadcast :=
  { encode := Except.ok [],
    encrypt := fun _ _ => Except.error (GoError.mk "enc") }

/-- C7: both creation entry points return the destination-precondition error
and no Broadcast whenever the payload carries a destination — for every
environment and private identity, so no signing, hashing or encryption
oracle is ever consulted — and hand control to the sign-and-encrypt
pipeline exactly when the destination is nil. -/
theorem C7_destination_precondition (env : cipher.CryptoEnv) (expiration expires : Nat)
    (data : cipher.Bitmessage) (tag : List Nat) (priv : cipher.Private) :
    (∀ d, data.destination = some d →
      cipher.CreateTaglessBroadcast env expiration data priv =
        (none, some (GoError.mk "Broadcasts do not have a destination.")) ∧
      cipher.CreateTaggedBroadcast env expires data tag priv =
        (none, some (GoError.mk "Broadcasts do not have a destination."))) ∧
    (data.destination = none →
      cipher.CreateTaglessBroadcast env expiration data priv =
        (match cipher.Broadcast.signAndEncrypt { msg := none, data := data, signature := [] }
            env (env.mkTagless expiration priv.address.stream) priv.address priv with
         | Except.error err => (none, some err)
         | Except.ok b => (some b, none)) ∧
      cipher.CreateTaggedBroadcast env expires data tag priv =
        (match cipher.Broadcast.signAndEncrypt { msg := none, data := data, signature := [] }
            env (env.mkTagged expires priv.address.stream tag) priv.address priv with
         | Except.error err => (none, some err)
         | Except.ok b => (some b, none))) := by
  constructor
  · intro d hd
    constructor
    · unfold cipher.CreateTaglessBroadcast
      simp [hd]
    · unfold cipher.CreateTaggedBroadcast
      simp [hd]
  · intro hn
    constructor
    · unfold cipher.CreateTaglessBroadcast
      simp [hn]
    · unfold cipher.CreateTaggedBroadcast
      simp [hn]

/-- Witness for C7: a payload with a destination is rejected by both entry
points; the all-none payload `m0` reaches the pipeline. -/
theorem C7_destination_precondition_witness :
    (cipher.CreateTaglessBroadcast env1 0 mDest priv1 =
        (none, some (GoError.mk "Broadcasts do not have a destination.")) ∧
      cipher.CreateTaggedBroadcast env1 0 mDest (List.replicate 32 0) priv1 =
        (none, some (GoError.mk "Broadcasts do not have a destination."))) ∧
    (cipher.CreateTaglessBroadcast env1 0 m0 priv1 =
        (match cipher.Broadcast.signAndEncrypt { msg := none, data := m0, signature := [] }
            env1 (env1.mkTagless 0 priv1.address.stream) priv1.address priv1 with
         | Except.error err => (none, some err)
         | Except.ok b => (some b, none)) ∧
      cipher.CreateTaggedBroadcast env1 0 m0 (List.replicate 32 0) priv1 =
        (match cipher.Broadcast.signAndEncrypt { msg := none, data := m0, signature := [] }
            env1 (env1.mkTagged 0 priv1.address.stream (List.replicate 32 0))
            priv1.address priv1 with
         | Except.error err => (none, some err)
         | Except.ok b => (some b, none))) :=
  ⟨(C7_destination_precondition env1 0 0 mDest (List.replicate 32 0) priv1).1 addr2 rfl,
   (C7_destination_precondition env1 0 0 m0 (List.replicate 32 0) priv1).2 rfl⟩

/-- C8 counterexample: a signing failure "boom" aborts the pipeline, but the
error handed to the caller is the wrapped "signing failed: boom", not the
underlying error unchanged. -/
theorem C8_wrap_counterexample :
    cipher.Broadcast.signAndEncrypt { msg := none, data := m0, signature := [] }
        env1 i0 addr1 privBoom =
      Except.error (GoError.mk "signing failed: boom") ∧
    GoError.mk "signing failed: boom" ≠ GoError.mk "boom" := by
  constructor
  · rfl
  · decide

/-- C8 (amended): a failure at any step of signAndEncrypt aborts the whole
pipeline with no Broadcast exposed to the caller (the creation entry points
return none on every error); an encoding failure is returned unchanged,
while signing and encryption failures are returned wrapped with the
"signing failed: " and "encryption failed: " prefixes respectively. -/
theorem C8_pipeline_abort (env : cipher.CryptoEnv) (broadcast : cipher.Broadcast)
    (i : cipher.IncompleteBroadcast) (address : Address) (priv : cipher.Private) :
    (∀ e, i.encode = Except.error e →
      broadcast.signAndEncrypt env i address priv = Except.error e) ∧
    (∀ h e, i.encode = Except.ok h →
      priv.sign (env.sha256 (h ++ broadcast.data.encodeBroadcast)) = Except.error e →
      broadcast.signAndEncrypt env i address priv =
        Except.error (GoError.mk ("signing failed: " ++ e.message))) ∧
    (∀ h sg e, i.encode = Except.ok h →
      priv.sign (env.sha256 (h ++ broadcast.data.encodeBroadcast)) = Except.ok sg →
      i.encrypt address
          (cipher.Broadcast.encodeForEncryption { broadcast with signature := sg }) =
        Except.error e →
      broadcast.signAndEncrypt env i address priv =
        Except.error (GoError.mk ("encryption failed: " ++ e.message))) ∧
    (∀ exp2 dat, ((cipher.CreateTaglessBroadcast env exp2 dat priv).2).isSome →
      (cipher.CreateTaglessBroadcast env exp2 dat priv).1 = none) ∧
    (∀ exp2 dat tg, ((cipher.CreateTaggedBroadcast env exp2 dat tg priv).2).isSome →
      (cipher.CreateTaggedBroadcast env exp2 dat tg priv).1 = none) := by
  refine ⟨?_, ?_, ?_, ?_, ?_⟩
  · intro e he
    unfold cipher.Broadcast.signAndEncrypt cipher.broadcastEncodeForSigning
    rw [he]
  · intro h e he hs
    unfold cipher.Broadcast.signAndEncrypt cipher.broadcastEncodeForSigning
    rw [he]
    simp only []
    rw [hs]
  · intro h sg e he hs hc
    unfold cipher.Broadcast.signAndEncrypt cipher.broadcastEncodeForSigning
    rw [he]
    simp only []
    rw [hs]
    simp only []
    rw [hc]
  · intro exp2 dat hsome
    unfold cipher.CreateTaglessBroadcast at hsome ⊢
    by_cases hd : dat.destination = none
    · simp only [hd] at hsome ⊢
      cases hres : cipher.Broadcast.signAndEncrypt { msg := none, data := dat, signature := [] }
          env (env.mkTagless exp2 priv.address.stream) priv.address priv with
      | error e => simp
      | ok b =>
          rw [hres] at hsome
          simp at hsome
    · simp only [hd] at hsome ⊢
      simp_all
  · intro exp2 dat tg hsome
    unfold cipher.CreateTaggedBroadcast at hsome ⊢
    by_cases hd : dat.destination = none
    · simp only [hd] at hsome ⊢
      cases hres : cipher.Broadcast.signAndEncrypt { msg := none, data := dat, signature := [] }
          env (env.mkTagged exp2 priv.address.stream tg) priv.address priv with
      | error e => simp
      | ok b =>
          rw [hres] at hsome
          simp at hsome
    · simp only [hd] at hsome ⊢
      simp_all

/-- Witness for the amended C8 at concrete inputs: an encode failure "w"
propagates unchanged; a sign failure "boom" comes back wrapped; an
encryption failure "enc" comes back wrapped; and a rejected creation call
returns no Broadcast. -/
theorem C8_pipeline_abort_witness :
    cipher.Broadcast.signAndEncrypt { msg := none, data := m0, signature := [] }
        env1 iErr addr1 priv1 = Except.error (GoError.mk "w") ∧
    cipher.Broadcast.signAndEncrypt { msg := none, data := m0, signature := [] }
        env1 i0 addr1 privBoom =
      Except.error (GoError.mk ("signing failed: " ++ (GoError.mk "boom").message)) ∧
    cipher.Broadcast.signAndEncrypt { msg := none, data := m0, signature := [] }
        env1 iEncFail addr1 priv1 =
      Except.error (GoError.mk ("encryption failed: " ++ (GoError.mk "enc").message)) ∧
    (cipher.CreateTaglessBroadcast env1 0 mDest priv1).1 = none :=
  ⟨(C8_pipeline_abort env1 { msg := none, data := m0, signature := [] } iErr addr1 priv1).1
      (GoError.mk "w") rfl,
   (C8_pipeline_abort env1 { msg := none, data := m0, signature := [] } i0 addr1 privBoom).2.1
      [] (GoError.mk "boom") rfl rfl,
   (C8_pipeline_abort env1 { msg := none, data := m0, signature := [] } iEncFail addr1 priv1).2.2.1
      [] (List.replicate 64 1) (GoError.mk "enc") rfl rfl rfl,
   (C8_pipeline_abort env1 { msg := none, data := m0, signature := [] } iErr addr1 priv1).2.2.2.1
      0 mDest (by decide)⟩

/-- C10: if ImportWIF returns a Private identity with no error, the address
re-derived from the imported keys (with the version and stream of the decoded
address) has the ripe hash of the decoded address, and it equals the own
key hash of the identity; conversely, whenever the re-derived key hash differs from the
decoded ripe hash, ImportWIF returns an error and no identity. -/
theorem C10_importWIF_ripe_check (env : identity.IdEnv) (a s d : String) (nt eb : Nat) :
    (∀ priv, identity.ImportWIF env a s d nt eb = Except.ok priv →
      ∃ addr, env.decodeAddress a = Except.ok addr ∧
        priv.address.ripe = addr.ripe ∧
        priv.address.version = addr.version ∧
        priv.address.stream = addr.stream ∧
        priv.address.ripe = identity.Private.hash env priv) ∧
    (∀ addr k1 k2, env.decodeAddress a = Except.ok addr →
      env.decodeWIF s = Except.ok k1 → env.decodeWIF d = Except.ok k2 →
      identity.hashHelper env (env.pubSerializeUncompressed k1)
          (env.pubSerializeUncompressed k2) ≠ addr.ripe →
      ∃ e, identity.ImportWIF env a s d nt eb = Except.error e) := by
  constructor
  · intro priv h
    unfold identity.ImportWIF at h
    split at h
    · exact absurd h (by simp)
    next addr ha =>
      split at h
      · exact absurd h (by simp)
      next k1 hs =>
        split at h
        · exact absurd h (by simp)
        next k2 hd =>
          simp only [] at h
          split at h
          · exact absurd h (by simp)
          next a2 hc =>
            split at h
            next hr =>
              refine ⟨addr, ha, ?_⟩
              unfold identity.createAddress at hc
              split at hc
              next hl =>
                rw [Except.ok.injEq] at hc h
                subst hc
                subst h
                refine ⟨hr, rfl, rfl, ?_⟩
                simp [identity.Private.hash] at hr ⊢
              · exact absurd hc (by simp)
            · exact absurd h (by simp)
  · intro addr k1 k2 ha hs hd hne
    unfold identity.ImportWIF
    rw [ha]
    simp only []
    rw [hs]
    simp only []
    rw [hd]
    simp only []
    have hh : identity.Private.hash env
        { address := addr, signingKey := k1, decryptionKey := k2,
          pow := ⟨nt, eb⟩, behavior := 0 } =
        identity.hashHelper env (env.pubSerializeUncompressed k1)
          (env.pubSerializeUncompressed k2) := rfl
    rw [hh]
    unfold identity.createAddress
    by_cases hl : (identity.hashHelper env (env.pubSerializeUncompressed k1)
        (env.pubSerializeUncompressed k2)).length = 20
    · rw [if_pos hl]
      simp only []
      rw [if_neg hne]
      exact ⟨_, rfl⟩
    · rw [if_neg hl]
      exact ⟨_, rfl⟩

/-- An identity environment under which the re-derived ripe hash matches the
ripe hash of the decoded address (both all-zero). -/
def env10a : identity.IdEnv :=
  { sha512 := fun x => x, ripemd160 := fun _ => List.replicate 20 0,
    pubSerializeUncompressed := fun k => k,
    decodeAddress := fun _ => Except.ok addr1,
    decodeWIF := fun _ => Except.ok [1] }

/-- Like `env10a` but the re-derived ripe hash comes out all-one, so it
cannot match the decoded address. -/
def env10b : identity.IdEnv :=
  { env10a with ripemd160 := fun _ => List.replicate 20 1 }

/-- The identity `env10a` imports. -/
def priv10 : identity.Private :=
  { address := addr1, pow := ⟨1000, 1000⟩, signingKey := [1], decryptionKey := [1],
    behavior := 0 }

/-- Witness for C10 at concrete inputs: a successful import yields an address
whose ripe hash is the decoded one, and a mismatching key hash makes
the import fail. -/
theorem C10_importWIF_ripe_check_witness :
    (∃ addr, env10a.decodeAddress "BM-x" = Except.ok addr ∧
      priv10.address.ripe = addr.ripe ∧
      priv10.address.version = addr.version ∧
      priv10.address.stream = addr.stream ∧
      priv10.address.ripe = identity.Private.hash env10a priv10) ∧
    (∃ e, identity.ImportWIF env10b "BM-x" "w1" "w2" 1000 1000 = Except.error e) :=
  ⟨(C10_importWIF_ripe_check env10a "BM-x" "w1" "w2" 1000 1000).1 priv10 (by decide),
   (C10_importWIF_ripe_check env10b "BM-x" "w1" "w2" 1000 1000).2 addr1 [1] [1]
      rfl rfl rfl (by decide)⟩
